import Mathlib

/-!
Verification of the clawstash storage-provisioning and backup-orchestration
core. Effectful boundaries (HTTP fetch, the system clock, the node crypto
library, JSON and date parsing from the JS runtime, the spawned restic
process) are modelled as explicit inputs; everything the repository itself
computes is translated directly from the TypeScript source.
-/

namespace Clawstash

/-- JS String.prototype.startsWith, over character lists. -/
def startsWithChars (pre s : List Char) : Bool := decide (pre <+: s)

/-- JS String.prototype.endsWith, over character lists. -/
def endsWithChars (suf s : List Char) : Bool := decide (suf <:+ s)

/-- JS String.prototype.startsWith. -/
def strStartsWith (s pre : String) : Bool := startsWithChars pre.data s.data

/-- JS String.prototype.endsWith. -/
def strEndsWith (s suf : String) : Bool := endsWithChars suf.data s.data

/-- JS String.prototype.includes: substring containment. -/
def strIncludes (s sub : String) : Bool := decide (sub.data <:+: s.data)

/-- Strip an expected leading character sequence, returning the remainder. -/
def dropStartChars : List Char → List Char → Option (List Char)
  | [], s => some s
  | _ :: _, [] => none
  | p :: ps, c :: cs => if p = c then dropStartChars ps cs else none

-- ── CategoryRules: src/core/openclaw.ts ─────────────────────────────────────

/-- The closed category enumeration from src/core/openclaw.ts. -/
inductive FileCategory
  | config
  | secrets
  | workspace
  | sessions
  | memory
  | skills
  | agents
  | settings
  | other
deriving DecidableEq, Repr

/-- The regex test from categorizeFile for per-agent config paths:
matching agents/ then one or more non-slash characters then /agent/ at
the start of the path. -/
def agentsMatch (relativePath : String) : Bool :=
  match dropStartChars "agents/".data relativePath.data with
  | none => false
  | some rest =>
    !(rest.takeWhile (fun c => c ≠ '/')).isEmpty &&
      startsWithChars "/agent/".data (rest.dropWhile (fun c => c ≠ '/'))

/-- categorizeFile from src/core/openclaw.ts: ordered first-match rule
evaluation over the relative path. -/
def categorizeFile (relativePath : String) : FileCategory :=
  if relativePath == "openclaw.json" || relativePath == "openclaw.json5" ||
      (strStartsWith relativePath "openclaw." && !strIncludes relativePath "/") then
    .config
  else if relativePath == ".env" || strStartsWith relativePath "credentials/" ||
      strStartsWith relativePath "auth/" then
    .secrets
  else if strStartsWith relativePath "workspace/" || strStartsWith relativePath "workspace-" then
    .workspace
  else if strStartsWith relativePath "skills/" then
    .skills
  else if strIncludes relativePath "/sessions/" &&
      (strEndsWith relativePath ".jsonl" || strEndsWith relativePath "sessions.json") then
    .sessions
  else if strEndsWith relativePath ".sqlite" &&
      (strStartsWith relativePath "memory/" || strIncludes relativePath "memory") then
    .memory
  else if agentsMatch relativePath then
    .agents
  else if strStartsWith relativePath "settings/" then
    .settings
  else
    .other

-- ── StorageProvisioner: src/core/s3.ts ──────────────────────────────────────

/-- An HTTP response as observed by the provisioning code: status plus body
text. -/
structure HttpResponse where
  status : Nat
  body : String
deriving DecidableEq, Repr

/-- The provider marker string checked by createBucket. -/
def bucketAlreadyOwnedMarker : String := "BucketAlreadyOwnedByYou"

/-- createBucket from src/core/s3.ts, as a function of the PUT response.
Returns ok true for Created, ok false for AlreadyOwned, error with the
status and body otherwise. -/
def createBucket (bucket : String) (res : HttpResponse) : Except String Bool :=
  if res.status == 200 || res.status == 201 then
    .ok true
  else if res.status == 409 then
    .ok false
  else if strIncludes res.body bucketAlreadyOwnedMarker then
    .ok false
  else
    .error ("Failed to create bucket \"" ++ bucket ++ "\": " ++
      toString res.status ++ " — " ++ res.body)

/-- The claimed createBucket behaviour, written from the words of the spec:
AlreadyOwned on 409 or on a 4xx body containing the marker, failure on any
other status. Used only to compare against createBucket. -/
def createBucketClaimed (bucket : String) (res : HttpResponse) : Except String Bool :=
  if res.status == 200 || res.status == 201 then
    .ok true
  else if res.status = 409 ∨
      (400 ≤ res.status ∧ res.status < 500 ∧ strIncludes res.body bucketAlreadyOwnedMarker = true) then
    .ok false
  else
    .error ("Failed to create bucket \"" ++ bucket ++ "\": " ++
      toString res.status ++ " — " ++ res.body)

/-- bucketExists from src/core/s3.ts, as a function of the outcome of the
signed HEAD fetch: ok carries the response, error a thrown network or TLS
failure. -/
def bucketExists (fetchResult : Except String HttpResponse) : Bool :=
  match fetchResult with
  | .ok res => res.status == 200
  | .error _ => false

/-- The fixed ordered jurisdiction candidate list from detectR2Jurisdiction. -/
def r2Jurisdictions : List String := ["", "eu"]

/-- The sequential probe loop of detectR2Jurisdiction: the first candidate
whose signed GET returns 200 wins; a thrown fetch error or a non-200 status
moves on to the next candidate. -/
def detectR2Loop (probe : String → Except String Nat) : List String → String
  | [] => ""
  | jur :: rest =>
    match probe jur with
    | .ok status => if status == 200 then jur else detectR2Loop probe rest
    | .error _ => detectR2Loop probe rest

/-- detectR2Jurisdiction from src/core/s3.ts, as a function of the probe
outcome for each candidate endpoint. -/
def detectR2Jurisdiction (probe : String → Except String Nat) : String :=
  detectR2Loop probe r2Jurisdictions

-- ── RequestSigner: src/core/s3.ts ───────────────────────────────────────────

/-- The parts of a WHATWG URL object used by signRequest. URL resolution
itself is the JS runtime library, supplied as a function. -/
structure UrlParts where
  host : String
  pathname : String
  search : String
  full : String
deriving DecidableEq, Repr

/-- The node crypto primitives used by signRequest, as abstract
deterministic functions: hex sha256 of a string, keyed hash returning raw
bytes, keyed hash returning hex. -/
structure CryptoOps where
  sha256Hex : String → String
  hmacBytes : String → String → String
  hmacHex : String → String → String

/-- The global replace of dashes and colons in the ISO timestamp. -/
def stripDashColon (cs : List Char) : List Char :=
  cs.filter (fun c => !(c == '-' || c == ':'))

/-- The non-global replace of the first dot-digits run (the fractional
seconds) in the ISO timestamp. -/
def stripFracAux : List Char → List Char
  | [] => []
  | c :: rest =>
    if c = '.' ∧ (rest.headD ' ').isDigit then rest.dropWhile Char.isDigit
    else c :: stripFracAux rest

/-- The replace of a single leading question mark on url.search. -/
def stripLeadingQm (s : String) : String :=
  match s.data with
  | '?' :: rest => ⟨rest⟩
  | _ => s

/-- getSignatureKey from src/core/s3.ts: the four-level keyed-hash chain
seeded with the secret key. -/
def getSignatureKey (crypto : CryptoOps) (secretKey date region service : String) : String :=
  crypto.hmacBytes
    (crypto.hmacBytes (crypto.hmacBytes (crypto.hmacBytes ("AWS4" ++ secretKey) date) region)
      service)
    "aws4_request"

/-- The fixed inputs of signRequest. -/
structure SignOpts where
  method : String
  endpoint : String
  path : String
  body : String
  accessKeyId : String
  secretAccessKey : String
  region : String
deriving DecidableEq, Repr

/-- The headers emitted by signRequest. -/
structure RequestHeaders where
  host : String
  xAmzDate : String
  xAmzContentSha256 : String
  authorization : String
deriving DecidableEq, Repr

/-- The url plus headers returned by signRequest. -/
structure SignedRequest where
  url : String
  headers : RequestHeaders
deriving DecidableEq, Repr

/-- signRequest from src/core/s3.ts. The clock yields the ISO timestamp
string that new Date().toISOString() produces at call time; urlResolve is
the WHATWG URL constructor applied to the path and the endpoint base. -/
def signRequest (crypto : CryptoOps) (urlResolve : String → String → UrlParts)
    (clock : Unit → String) (opts : SignOpts) : SignedRequest :=
  let url := urlResolve opts.path opts.endpoint
  let host := url.host
  let iso := clock ()
  let amzDate : String := ⟨stripFracAux (stripDashColon iso.data)⟩
  let dateStamp : String := ⟨amzDate.data.take 8⟩
  let payloadHash := crypto.sha256Hex opts.body
  let canonicalHeaders :=
    "host:" ++ host ++ "\nx-amz-content-sha256:" ++ payloadHash ++
      "\nx-amz-date:" ++ amzDate ++ "\n"
  let signedHeaders := "host;x-amz-content-sha256;x-amz-date"
  let canonicalRequest := String.intercalate "\n"
    [opts.method, url.pathname, stripLeadingQm url.search, canonicalHeaders,
      signedHeaders, payloadHash]
  let credentialScope := dateStamp ++ "/" ++ opts.region ++ "/s3/aws4_request"
  let stringToSign := String.intercalate "\n"
    ["AWS4-HMAC-SHA256", amzDate, credentialScope, crypto.sha256Hex canonicalRequest]
  let signingKey := getSignatureKey crypto opts.secretAccessKey dateStamp opts.region "s3"
  let signature := crypto.hmacHex signingKey stringToSign
  let authorization :=
    "AWS4-HMAC-SHA256 Credential=" ++ opts.accessKeyId ++ "/" ++ credentialScope ++
      ", SignedHeaders=" ++ signedHeaders ++ ", Signature=" ++ signature
  { url := url.full,
    headers :=
      { host := host, xAmzDate := amzDate, xAmzContentSha256 := payloadHash,
        authorization := authorization } }

-- ── ProcessOrchestrator backup parsing: src/core/restic.ts ──────────────────

/-- JS String.prototype.trim over characters. -/
def trimChars (cs : List Char) : List Char :=
  ((cs.dropWhile Char.isWhitespace).reverse.dropWhile Char.isWhitespace).reverse

/-- JS String.prototype.split on a newline separator. -/
def splitNlAux : List Char → List Char → List (List Char)
  | [], cur => [cur.reverse]
  | c :: rest, cur =>
    if c = '\n' then cur.reverse :: splitNlAux rest []
    else splitNlAux rest (c :: cur)

/-- output.trim().split newline, as in backup in src/core/restic.ts. -/
def linesOf (output : String) : List String :=
  (splitNlAux (trimChars output.data) []).map (fun cs => ⟨cs⟩)

/-- Whether a line parses as JSON and its discriminator field equals
summary. messageType reads the field of a parsed value; parseJson is the
runtime JSON parser. -/
def isSummaryLine {α : Type} (messageType : α → Option String)
    (parseJson : String → Option α) (line : String) : Bool :=
  match parseJson line with
  | some v => messageType v == some "summary"
  | none => false

/-- The error thrown by backup when no summary line is found. -/
def noSummaryMsg : String := "No backup summary found in restic output"

/-- The downward loop of backup in src/core/restic.ts, expressed over the
reversed line list: skip lines that fail to parse or are not
summary-tagged, return the first hit. -/
def findSummaryLoop {α : Type} (messageType : α → Option String)
    (parseJson : String → Option α) : List String → Except String α
  | [] => .error noSummaryMsg
  | line :: rest =>
    match parseJson line with
    | some v =>
      if messageType v == some "summary" then .ok v
      else findSummaryLoop messageType parseJson rest
    | none => findSummaryLoop messageType parseJson rest

/-- The output-parsing tail of backup in src/core/restic.ts: trim, split
into lines, scan from the last line downward for a summary-tagged record. -/
def backupParseSummary {α : Type} (messageType : α → Option String)
    (parseJson : String → Option α) (output : String) : Except String α :=
  findSummaryLoop messageType parseJson (linesOf output).reverse

-- ── SnapshotTimeResolver: src/cli/restore.ts ────────────────────────────────

/-- The snapshot fields used by findSnapshotByTime. -/
structure ResticSnapshot where
  id : String
  short_id : String
  time : String
deriving DecidableEq, Repr

/-- Case-insensitive literal word match (pattern given in lowercase),
returning the remainder. -/
def matchWordCI : List Char → List Char → Option (List Char)
  | [], s => some s
  | _ :: _, [] => none
  | w :: ws, c :: cs => if c.toLower == w then matchWordCI ws cs else none

/-- parseInt base 10 on a digit run. -/
def digitsToNat (ds : List Char) : Nat :=
  ds.foldl (fun acc c => acc * 10 + (c.toNat - 48)) 0

/-- One-or-more whitespace, returning the remainder. -/
def skipWs1 : List Char → Option (List Char)
  | c :: rest =>
    if c.isWhitespace then some (rest.dropWhile Char.isWhitespace) else none
  | [] => none

/-- The unit alternation of the relative-time regex, in order. -/
def relUnits : List String := ["minute", "hour", "day", "week", "month"]

/-- Try each unit word in turn at the head of the input. -/
def matchUnit : List String → List Char → Option (String × List Char)
  | [], _ => none
  | u :: us, cs =>
    match matchWordCI u.data cs with
    | some rest => some (u, rest)
    | none => matchUnit us cs

/-- The anchored case-insensitive relative-time regex of
findSnapshotByTime: digits, whitespace, a unit with optional trailing s,
whitespace, the word ago, end of string. Yields the parsed amount and the
lowercased unit. -/
def relMatch (timeStr : String) : Option (Nat × String) :=
  let cs := timeStr.data
  let ds := cs.takeWhile Char.isDigit
  if ds.isEmpty then none
  else
    match skipWs1 (cs.drop ds.length) with
    | none => none
    | some rest1 =>
      match matchUnit relUnits rest1 with
      | none => none
      | some (unit, rest2) =>
        let rest3 := match rest2 with
          | c :: cs2 => if c.toLower == 's' then cs2 else rest2
          | [] => rest2
        match skipWs1 rest3 with
        | none => none
        | some rest4 =>
          match matchWordCI "ago".data rest4 with
          | some [] => some (digitsToNat ds, unit)
          | _ => none

/-- The fixed millisecond multipliers of findSnapshotByTime. -/
def relMultipliers (unit : String) : Option Int :=
  if unit = "minute" then some 60000
  else if unit = "hour" then some 3600000
  else if unit = "day" then some 86400000
  else if unit = "week" then some 604800000
  else if unit = "month" then some 2592000000
  else none

/-- The target-instant computation of findSnapshotByTime: a relative
phrase subtracts amount times multiplier from the current time, otherwise
the expression is handed to the runtime date parser (none standing for
NaN). -/
def computeTarget (parseDate : String → Option Int) (now : Int)
    (timeStr : String) : Option Int :=
  match relMatch timeStr with
  | some (amount, unit) => some (now - (amount : Int) * ((relMultipliers unit).getD 0))
  | none => parseDate timeStr

/-- The scan loop of findSnapshotByTime: strict less-than against the best
difference so far, starting from infinity (none); a snapshot whose time
fails to parse never compares smaller and is skipped. -/
def scanBest (parseDate : String → Option Int) (target : Int) :
    List ResticSnapshot → Option (ResticSnapshot × Nat) → Option ResticSnapshot
  | [], best => best.map Prod.fst
  | snap :: rest, best =>
    match parseDate snap.time with
    | none => scanBest parseDate target rest best
    | some snapTime =>
      let diff := (snapTime - target).natAbs
      match best with
      | none => scanBest parseDate target rest (some (snap, diff))
      | some (b, bestDiff) =>
        if diff < bestDiff then scanBest parseDate target rest (some (snap, diff))
        else scanBest parseDate target rest (some (b, bestDiff))

/-- The error logged by findSnapshotByTime before exiting on an
unparseable absolute time expression. -/
def cannotParseMsg (timeStr : String) : String := "Cannot parse time: " ++ timeStr

/-- findSnapshotByTime from src/cli/restore.ts. -/
def findSnapshotByTime (parseDate : String → Option Int) (now : Int)
    (snapshots : List ResticSnapshot) (timeStr : String) :
    Except String (Option ResticSnapshot) :=
  match computeTarget parseDate now timeStr with
  | none => .error (cannotParseMsg timeStr)
  | some target => .ok (scanBest parseDate target snapshots none)

-- ── CredentialResolver: src/cli/backup.ts ───────────────────────────────────

/-- JS truthiness of an optional string: defined and non-empty. -/
def jsTruthy : Option String → Bool
  | none => false
  | some s => s != ""

/-- The lines logged by resolvePassphrase before exiting when no source
yields a passphrase. -/
def noPassphraseMsgs : List String :=
  ["No passphrase found.",
   "Options:",
   "  1. Save to keychain:  clawstash setup",
   "  2. Set env var:       export CLAWSTASH_PASSPHRASE=...",
   "  3. Pass flag:         --passphrase ..."]

/-- resolvePassphrase from src/cli/backup.ts, as a function of the three
sources: the explicit flag, the CLAWSTASH_PASSPHRASE environment variable,
and the keychain lookup result. -/
def resolvePassphrase (explicitFlag envVar keychain : Option String) :
    Except (List String) String :=
  if jsTruthy explicitFlag then .ok (explicitFlag.getD "")
  else if jsTruthy envVar then .ok (envVar.getD "")
  else if jsTruthy keychain then .ok (keychain.getD "")
  else .error noPassphraseMsgs

-- ── backupCommand retention tail: src/cli/backup.ts ─────────────────────────

/-- The observable outcome of backupCommand: an error exit, or completion
reporting the backup summary, possibly with a retention warning. -/
inductive CmdOutcome (σ : Type)
  | exited (code : Nat)
  | completed (summary : σ) (retentionWarning : Bool)
deriving DecidableEq, Repr

/-- The backup-then-forget control flow of backupCommand in
src/cli/backup.ts: a failed backup exits 1; a successful backup reports
its summary, then — unless dry-run or no-forget — applies retention, and a
retention failure only adds a warning. -/
def backupCommandTail {σ : Type} (backupResult : Except String σ)
    (dryRun forgetFlag : Option Bool) (forgetResult : Except String Unit) :
    CmdOutcome σ :=
  match backupResult with
  | .error _ => .exited 1
  | .ok s =>
    if dryRun != some true && forgetFlag != some false then
      match forgetResult with
      | .ok _ => .completed s false
      | .error _ => .completed s true
    else .completed s false

-- ── Category include maps: src/cli/backup.ts and src/cli/restore.ts ─────────

/-- The backup-direction category map of getCategoryIncludes in
src/cli/backup.ts, in object-literal key order. -/
def backupCategoryMap : List (String × List String) :=
  [("config", ["openclaw.json", "openclaw.json5", ".env"]),
   ("secrets", ["credentials/**", "auth/**", ".env"]),
   ("workspace", ["workspace/**", "workspace-*/**"]),
   ("sessions", ["agents/*/sessions/**"]),
   ("memory", ["memory/**"]),
   ("skills", ["skills/**", "workspace/skills/**"]),
   ("agents", ["agents/*/agent/**"]),
   ("settings", ["settings/**"])]

/-- The restore-direction category map of getCategoryIncludes in
src/cli/restore.ts, in object-literal key order. -/
def restoreCategoryMap : List (String × List String) :=
  [("config", ["**/openclaw.json", "**/.env"]),
   ("secrets", ["**/credentials/**", "**/auth/**"]),
   ("workspace", ["**/workspace/**"]),
   ("sessions", ["**/agents/*/sessions/**"]),
   ("memory", ["**/agents/*/memory.sqlite", "**/agents/*/memory.db"])]

/-- The shared shape of both getCategoryIncludes functions: a falsy flag
means no filtering; a known key returns its glob list; an unknown key
fails, the error enumerating the valid keys. -/
def getCategoryIncludesWith (catMap : List (String × List String))
    (only : Option String) : Except (List String) (Option (List String)) :=
  if jsTruthy only = false then .ok none
  else
    match catMap.lookup (only.getD "") with
    | some includes => .ok (some includes)
    | none => .error (catMap.map Prod.fst)

/-- getCategoryIncludes from src/cli/backup.ts. -/
def getCategoryIncludesBackup : Option String → Except (List String) (Option (List String)) :=
  getCategoryIncludesWith backupCategoryMap

/-- getCategoryIncludes from src/cli/restore.ts. -/
def getCategoryIncludesRestore : Option String → Except (List String) (Option (List String)) :=
  getCategoryIncludesWith restoreCategoryMap

/-- The nine members of the FileCategory enumeration, as names. -/
def allCategoryNames : List String :=
  ["config", "secrets", "workspace", "sessions", "memory", "skills",
   "agents", "settings", "other"]

-- ── Concrete test fixtures used by witnesses ────────────────────────────────

/-- Fixture: a discriminator reader over string-modelled parsed records. -/
def fixtureMessageType : String → Option String :=
  fun v => if v = "S" then some "summary" else some "status"

/-- Fixture: a JSON parser failing on one designated malformed line. -/
def fixtureParseJson : String → Option String :=
  fun l => if l = "notjson" then none else some l

/-- Fixture: a date parser for the concrete snapshot times and absolute
expressions used in witnesses (milliseconds relative to a frozen now of
zero). -/
def fixtureParseDate : String → Option Int :=
  fun t =>
    if t = "t3d" then some (-259200000)
    else if t = "t1d" then some (-86400000)
    else if t = "t1h" then some (-3600000)
    else if t = "tA" then some 10
    else if t = "tB" then some 30
    else if t = "T20" then some 20
    else none

/-- Fixture: a snapshot three days old. -/
def snap3d : ResticSnapshot := ⟨"a", "a8", "t3d"⟩

/-- Fixture: a snapshot one day old. -/
def snap1d : ResticSnapshot := ⟨"b", "b8", "t1d"⟩

/-- Fixture: a snapshot one hour old. -/
def snap1h : ResticSnapshot := ⟨"c", "c8", "t1h"⟩

/-- Fixture: the earlier-listed of two equidistant snapshots. -/
def snapA : ResticSnapshot := ⟨"A", "A8", "tA"⟩

/-- Fixture: the later-listed of two equidistant snapshots. -/
def snapB : ResticSnapshot := ⟨"B", "B8", "tB"⟩

end Clawstash

deriving instance DecidableEq for Except

namespace Clawstash

-- ── Helper lemmas ───────────────────────────────────────────────────────────

/-- Lookup misses every association list whose keys avoid the query. -/
theorem lookupEqNoneOfNotMem {β : Type} (m : List (String × β)) (s : String)
    (h : s ∉ m.map Prod.fst) : m.lookup s = none := by
  induction m with
  | nil => rfl
  | cons kv m ih =>
    obtain ⟨k, v⟩ := kv
    simp only [List.map_cons, List.mem_cons, not_or] at h
    simp only [List.lookup, beq_eq_false_iff_ne.mpr h.1, ih h.2]

-- ── C3 ──────────────────────────────────────────────────────────────────────

/-- C3 counterexample: on a 500 response whose body contains the
BucketAlreadyOwnedByYou marker, createBucket classifies AlreadyOwned
(ok false), while the claim — which restricts the marker check to 4xx
responses and demands failure for any other status — requires an error. -/
theorem createBucket_claim_counterexample :
    createBucket "b" ⟨500, "BucketAlreadyOwnedByYou"⟩ = .ok false ∧
    createBucketClaimed "b" ⟨500, "BucketAlreadyOwnedByYou"⟩ =
      .error "Failed to create bucket \"b\": 500 — BucketAlreadyOwnedByYou" := by
  constructor <;> decide

/-- C3 (amended): createBucket returns Created exactly on status 200 or
201; AlreadyOwned on status 409, or whenever the body of any other
response contains the BucketAlreadyOwnedByYou marker regardless of status
class; and fails with the status code and body only when the status is
outside 200, 201, 409 and the marker is absent. -/
theorem createBucket_spec :
    (∀ (b : String) (r : HttpResponse), r.status = 200 ∨ r.status = 201 →
      createBucket b r = .ok true)
  ∧ (∀ (b : String) (r : HttpResponse), r.status = 409 → createBucket b r = .ok false)
  ∧ (∀ (b : String) (r : HttpResponse), r.status ≠ 200 → r.status ≠ 201 → r.status ≠ 409 →
      strIncludes r.body bucketAlreadyOwnedMarker = true → createBucket b r = .ok false)
  ∧ (∀ (b : String) (r : HttpResponse), r.status ≠ 200 → r.status ≠ 201 → r.status ≠ 409 →
      strIncludes r.body bucketAlreadyOwnedMarker = false →
      createBucket b r = .error ("Failed to create bucket \"" ++ b ++ "\": " ++
        toString r.status ++ " — " ++ r.body)) := by
  refine ⟨?_, ?_, ?_, ?_⟩
  · intro b r h
    rcases h with h | h <;> simp [createBucket, h]
  · intro b r h
    simp [createBucket, h]
  · intro b r h1 h2 h3 h4
    simp [createBucket, beq_eq_false_iff_ne.mpr h1, beq_eq_false_iff_ne.mpr h2,
      beq_eq_false_iff_ne.mpr h3, h4]
  · intro b r h1 h2 h3 h4
    simp [createBucket, beq_eq_false_iff_ne.mpr h1, beq_eq_false_iff_ne.mpr h2,
      beq_eq_false_iff_ne.mpr h3, h4]

/-- C3 witness: the amended statement evaluated on concrete responses. -/
theorem createBucket_spec_witness :
    createBucket "b" ⟨200, ""⟩ = .ok true ∧
    createBucket "b" ⟨409, ""⟩ = .ok false ∧
    createBucket "b" ⟨400, "xBucketAlreadyOwnedByYoux"⟩ = .ok false ∧
    createBucket "b" ⟨403, "AccessDenied"⟩ =
      .error "Failed to create bucket \"b\": 403 — AccessDenied" :=
  ⟨createBucket_spec.1 "b" ⟨200, ""⟩ (Or.inl rfl),
   createBucket_spec.2.1 "b" ⟨409, ""⟩ rfl,
   createBucket_spec.2.2.1 "b" ⟨400, "xBucketAlreadyOwnedByYoux"⟩
     (by decide) (by decide) (by decide) (by decide),
   createBucket_spec.2.2.2 "b" ⟨403, "AccessDenied"⟩
     (by decide) (by decide) (by decide) (by decide)⟩

-- ── C7 ──────────────────────────────────────────────────────────────────────

/-- C7: bucketExists is true exactly when the HEAD fetch returned status
200; every other status and every thrown network or TLS failure yields
false, and an error outcome is indistinguishable from any non-200
response. -/
theorem bucketExists_spec :
    (∀ r : HttpResponse, bucketExists (.ok r) = true ↔ r.status = 200)
  ∧ (∀ e : String, bucketExists (.error e) = false)
  ∧ (∀ (e : String) (r : HttpResponse), r.status ≠ 200 →
      bucketExists (.error e) = bucketExists (.ok r)) := by
  refine ⟨?_, ?_, ?_⟩
  · intro r
    simp [bucketExists]
  · intro e
    rfl
  · intro e r h
    simp [bucketExists, beq_eq_false_iff_ne.mpr h]

/-- C7 witness: a network failure and a 404 response are both reported as
false. -/
theorem bucketExists_spec_witness :
    bucketExists (.error "connect ETIMEDOUT") = bucketExists (.ok ⟨404, "NoSuchBucket"⟩) :=
  bucketExists_spec.2.2 "connect ETIMEDOUT" ⟨404, "NoSuchBucket"⟩ (by decide)

-- ── C9 ──────────────────────────────────────────────────────────────────────

/-- C9: detectR2Jurisdiction probes the candidates in order (default
first, then eu), returns the first candidate whose signed GET yields
status 200, returns the empty default when no candidate yields 200 —
network errors included — and never consults later candidates once one
succeeds. -/
theorem detectR2Jurisdiction_spec :
    (∀ probe : String → Except String Nat, probe "" = .ok 200 →
      detectR2Jurisdiction probe = "")
  ∧ (∀ probe : String → Except String Nat, probe "" ≠ .ok 200 → probe "eu" = .ok 200 →
      detectR2Jurisdiction probe = "eu")
  ∧ (∀ probe : String → Except String Nat, probe "" ≠ .ok 200 → probe "eu" ≠ .ok 200 →
      detectR2Jurisdiction probe = "")
  ∧ (∀ probe1 probe2 : String → Except String Nat, probe1 "" = probe2 "" →
      probe1 "" = .ok 200 → detectR2Jurisdiction probe1 = detectR2Jurisdiction probe2) := by
  have step : ∀ (probe : String → Except String Nat) (jur : String) (rest : List String),
      probe jur ≠ .ok 200 →
      detectR2Loop probe (jur :: rest) = detectR2Loop probe rest := by
    intro probe jur rest h
    cases hp : probe jur with
    | ok s =>
      by_cases hs : s = 200
      · exact absurd (hs ▸ hp) h
      · simp [detectR2Loop, hp, beq_eq_false_iff_ne.mpr hs]
    | error e => simp [detectR2Loop, hp]
  have hit : ∀ (probe : String → Except String Nat) (jur : String) (rest : List String),
      probe jur = .ok 200 →
      detectR2Loop probe (jur :: rest) = jur := by
    intro probe jur rest h
    simp [detectR2Loop, h]
  refine ⟨?_, ?_, ?_, ?_⟩
  · intro probe h
    exact hit probe "" ["eu"] h
  · intro probe h1 h2
    rw [detectR2Jurisdiction, r2Jurisdictions, step probe "" ["eu"] h1]
    exact hit probe "eu" [] h2
  · intro probe h1 h2
    rw [detectR2Jurisdiction, r2Jurisdictions, step probe "" ["eu"] h1,
      step probe "eu" [] h2]
    rfl
  · intro probe1 probe2 he h
    rw [detectR2Jurisdiction, detectR2Jurisdiction, r2Jurisdictions,
      hit probe1 "" ["eu"] h, hit probe2 "" ["eu"] (he ▸ h)]

/-- C9 witness: a probe whose default endpoint errors and whose eu
endpoint answers 200 detects eu; a probe failing everywhere detects the
default. -/
theorem detectR2Jurisdiction_spec_witness :
    detectR2Jurisdiction
      (fun j => if j = "eu" then .ok 200 else .error "fetch failed") = "eu" ∧
    detectR2Jurisdiction
      (fun _ => .error "fetch failed") = "" :=
  ⟨detectR2Jurisdiction_spec.2.1 (fun j => if j = "eu" then .ok 200 else .error "fetch failed")
      (by decide) (by decide),
   detectR2Jurisdiction_spec.2.2.1 (fun _ => .error "fetch failed")
      (by decide) (by decide)⟩

-- ── C5 ──────────────────────────────────────────────────────────────────────

/-- C5: for fixed method, endpoint, path, body, keys and region, and a
frozen clock, signRequest is deterministic — two runs whose clocks agree
at call time produce byte-for-byte identical url and headers, the
Authorization header included. -/
theorem signRequest_deterministic :
    ∀ (crypto : CryptoOps) (urlResolve : String → String → UrlParts)
      (clock1 clock2 : Unit → String) (opts : SignOpts),
      clock1 () = clock2 () →
      signRequest crypto urlResolve clock1 opts = signRequest crypto urlResolve clock2 opts := by
  intro crypto urlResolve clock1 clock2 opts h
  simp only [signRequest, h]

/-- C5 witness: two syntactically different clock closures that agree on
the frozen instant yield identical signed requests for a concrete
request. -/
theorem signRequest_deterministic_witness :
    signRequest
      ⟨fun s => "H(" ++ s ++ ")", fun k d => k ++ "." ++ d, fun k d => k ++ "#" ++ d⟩
      (fun p e => ⟨"bkt.example.com", p, "", e ++ p⟩)
      (fun _ => "2024-01-02T03:04:05.678Z")
      ⟨"HEAD", "https://bkt.example.com", "/bucket", "", "AKID", "SECRET", "auto"⟩ =
    signRequest
      ⟨fun s => "H(" ++ s ++ ")", fun k d => k ++ "." ++ d, fun k d => k ++ "#" ++ d⟩
      (fun p e => ⟨"bkt.example.com", p, "", e ++ p⟩)
      (fun _ => String.append "2024-01-02T03:04:05.678" "Z")
      ⟨"HEAD", "https://bkt.example.com", "/bucket", "", "AKID", "SECRET", "auto"⟩ :=
  signRequest_deterministic
    ⟨fun s => "H(" ++ s ++ ")", fun k d => k ++ "." ++ d, fun k d => k ++ "#" ++ d⟩
    (fun p e => ⟨"bkt.example.com", p, "", e ++ p⟩)
    (fun _ => "2024-01-02T03:04:05.678Z")
    (fun _ => String.append "2024-01-02T03:04:05.678" "Z")
    ⟨"HEAD", "https://bkt.example.com", "/bucket", "", "AKID", "SECRET", "auto"⟩
    (by decide)

-- ── C4 ──────────────────────────────────────────────────────────────────────

/-- C4: resolvePassphrase honours the fixed order explicit flag, then
environment variable, then keychain — the highest-priority present
(JS-truthy) source wins even when lower-priority sources hold conflicting
values — and when no source is present it fails with the message lines
naming all three remediation paths. -/
theorem resolvePassphrase_spec :
    (∀ (e v k : Option String) (p : String), e = some p → p ≠ "" →
      resolvePassphrase e v k = .ok p)
  ∧ (∀ (e v k : Option String) (p : String), jsTruthy e = false → v = some p → p ≠ "" →
      resolvePassphrase e v k = .ok p)
  ∧ (∀ (e v k : Option String) (p : String), jsTruthy e = false → jsTruthy v = false →
      k = some p → p ≠ "" → resolvePassphrase e v k = .ok p)
  ∧ (∀ e v k : Option String, jsTruthy e = false → jsTruthy v = false →
      jsTruthy k = false → resolvePassphrase e v k = .error noPassphraseMsgs)
  ∧ ((noPassphraseMsgs.any fun m => strIncludes m "clawstash setup") = true
      ∧ (noPassphraseMsgs.any fun m => strIncludes m "CLAWSTASH_PASSPHRASE") = true
      ∧ (noPassphraseMsgs.any fun m => strIncludes m "--passphrase") = true) := by
  refine ⟨?_, ?_, ?_, ?_, by decide⟩
  · intro e v k p he hp
    subst he
    have ht : jsTruthy (some p) = true := by simp [jsTruthy, hp]
    simp [resolvePassphrase, ht]
  · intro e v k p he hv hp
    subst hv
    have ht : jsTruthy (some p) = true := by simp [jsTruthy, hp]
    simp [resolvePassphrase, he, ht]
  · intro e v k p he hv hk hp
    subst hk
    have ht : jsTruthy (some p) = true := by simp [jsTruthy, hp]
    simp [resolvePassphrase, he, hv, ht]
  · intro e v k he hv hk
    simp [resolvePassphrase, he, hv, hk]

/-- C4 witness: with conflicting values at every level the explicit flag
wins; with the flag absent the environment variable wins; with both absent
the keychain wins; with none present the failure message is produced. -/
theorem resolvePassphrase_spec_witness :
    resolvePassphrase (some "a") (some "b") (some "c") = .ok "a" ∧
    resolvePassphrase none (some "b") (some "c") = .ok "b" ∧
    resolvePassphrase none none (some "c") = .ok "c" ∧
    resolvePassphrase none none none = .error noPassphraseMsgs :=
  ⟨resolvePassphrase_spec.1 (some "a") (some "b") (some "c") "a" rfl (by decide),
   resolvePassphrase_spec.2.1 none (some "b") (some "c") "b" rfl rfl (by decide),
   resolvePassphrase_spec.2.2.1 none none (some "c") "c" rfl rfl rfl (by decide),
   resolvePassphrase_spec.2.2.2.1 none none none rfl rfl rfl⟩

-- ── C8 ──────────────────────────────────────────────────────────────────────

/-- C8: in backupCommand, when the backup succeeded and retention
application fails, the command still completes reporting the backup
summary, the retention failure surfacing only as a warning; a successful
backup never leads to an error exit whatever the retention outcome. -/
theorem backupCommandTail_retention_nonfatal :
    ∀ (σ : Type) (s : σ) (dryRun forgetFlag : Option Bool) (err : String),
      (dryRun ≠ some true → forgetFlag ≠ some false →
        backupCommandTail (.ok s) dryRun forgetFlag (.error err) = .completed s true)
    ∧ (∀ (forgetResult : Except String Unit) (code : Nat),
        backupCommandTail (.ok s) dryRun forgetFlag forgetResult ≠ .exited code) := by
  intro σ s dryRun forgetFlag err
  constructor
  · intro h1 h2
    simp [backupCommandTail, bne_iff_ne, h1, h2]
  · intro forgetResult code
    cases forgetResult with
    | ok v =>
      simp only [backupCommandTail]
      split <;> simp
    | error e =>
      simp only [backupCommandTail]
      split <;> simp

/-- C8 witness: a failed retention pass after a successful backup
completes with a warning instead of exiting. -/
theorem backupCommandTail_retention_nonfatal_witness :
    backupCommandTail (σ := Nat) (.ok 7) none none (.error "repository is locked") =
      .completed 7 true ∧
    backupCommandTail (σ := Nat) (.ok 7) none none (.error "repository is locked") ≠
      .exited 1 :=
  ⟨(backupCommandTail_retention_nonfatal Nat 7 none none "repository is locked").1
      (by decide) (by decide),
   (backupCommandTail_retention_nonfatal Nat 7 none none "repository is locked").2
      (.error "repository is locked") 1⟩

-- ── C10 ─────────────────────────────────────────────────────────────────────

/-- C10 counterexample: other is one of the nine valid categories yet the
backup-direction lookup fails on it, and skills is one of the nine yet the
restore-direction lookup fails on it — so the lookup does not return a
glob set for every one of the nine categories in each direction. -/
theorem getCategoryIncludes_claim_counterexample :
    getCategoryIncludesBackup (some "other") =
      .error ["config", "secrets", "workspace", "sessions", "memory", "skills",
        "agents", "settings"] ∧
    getCategoryIncludesRestore (some "skills") =
      .error ["config", "secrets", "workspace", "sessions", "memory"] ∧
    "other" ∈ allCategoryNames ∧ "skills" ∈ allCategoryNames := by
  refine ⟨by decide, by decide, by decide, by decide⟩

/-- C10 (amended): the backup-direction lookup returns its fixed glob set
for exactly the eight categories config, secrets, workspace, sessions,
memory, skills, agents, settings; the restore-direction lookup for exactly
the five categories config, secrets, workspace, sessions, memory; every
other non-empty name — the remaining enumeration members included — fails
with an error enumerating that direction's supported names; an absent
filter means no include patterns. -/
theorem getCategoryIncludes_spec :
    (getCategoryIncludesBackup (some "config") = .ok (some ["openclaw.json", "openclaw.json5", ".env"])
      ∧ getCategoryIncludesBackup (some "secrets") = .ok (some ["credentials/**", "auth/**", ".env"])
      ∧ getCategoryIncludesBackup (some "workspace") = .ok (some ["workspace/**", "workspace-*/**"])
      ∧ getCategoryIncludesBackup (some "sessions") = .ok (some ["agents/*/sessions/**"])
      ∧ getCategoryIncludesBackup (some "memory") = .ok (some ["memory/**"])
      ∧ getCategoryIncludesBackup (some "skills") = .ok (some ["skills/**", "workspace/skills/**"])
      ∧ getCategoryIncludesBackup (some "agents") = .ok (some ["agents/*/agent/**"])
      ∧ getCategoryIncludesBackup (some "settings") = .ok (some ["settings/**"]))
  ∧ (∀ s : String, s ∉ backupCategoryMap.map Prod.fst → s ≠ "" →
      getCategoryIncludesBackup (some s) = .error (backupCategoryMap.map Prod.fst))
  ∧ (getCategoryIncludesRestore (some "config") = .ok (some ["**/openclaw.json", "**/.env"])
      ∧ getCategoryIncludesRestore (some "secrets") = .ok (some ["**/credentials/**", "**/auth/**"])
      ∧ getCategoryIncludesRestore (some "workspace") = .ok (some ["**/workspace/**"])
      ∧ getCategoryIncludesRestore (some "sessions") = .ok (some ["**/agents/*/sessions/**"])
      ∧ getCategoryIncludesRestore (some "memory") = .ok (some ["**/agents/*/memory.sqlite", "**/agents/*/memory.db"]))
  ∧ (∀ s : String, s ∉ restoreCategoryMap.map Prod.fst → s ≠ "" →
      getCategoryIncludesRestore (some s) = .error (restoreCategoryMap.map Prod.fst))
  ∧ (getCategoryIncludesBackup none = .ok none ∧ getCategoryIncludesRestore none = .ok none) := by
  refine ⟨by decide, ?_, by decide, ?_, by decide⟩
  · intro s hs hne
    simp [getCategoryIncludesBackup, getCategoryIncludesWith, jsTruthy,
      bne_iff_ne, hne, lookupEqNoneOfNotMem _ _ hs]
  · intro s hs hne
    simp [getCategoryIncludesRestore, getCategoryIncludesWith, jsTruthy,
      bne_iff_ne, hne, lookupEqNoneOfNotMem _ _ hs]

/-- C10 witness: the unknown-name branches evaluated at enumeration
members missing from each direction. -/
theorem getCategoryIncludes_spec_witness :
    getCategoryIncludesBackup (some "nonsense") =
      .error (backupCategoryMap.map Prod.fst) ∧
    getCategoryIncludesRestore (some "settings") =
      .error (restoreCategoryMap.map Prod.fst) :=
  ⟨getCategoryIncludes_spec.2.1 "nonsense" (by decide) (by decide),
   getCategoryIncludes_spec.2.2.2.1 "settings" (by decide) (by decide)⟩

-- ── C1 ──────────────────────────────────────────────────────────────────────

/-- When no line of a list qualifies, the summary scan reports the
protocol error. -/
theorem findSummaryLoopAllNot {α : Type} (mt : α → Option String)
    (p : String → Option α) (L : List String)
    (h : ∀ l ∈ L, isSummaryLine mt p l = false) :
    findSummaryLoop mt p L = .error noSummaryMsg := by
  induction L with
  | nil => rfl
  | cons line rest ih =>
    have hl := h line (List.mem_cons_self line rest)
    have hr : ∀ l ∈ rest, isSummaryLine mt p l = false :=
      fun l hm => h l (List.mem_cons_of_mem _ hm)
    cases hp : p line with
    | some v =>
      have hv : (mt v == some "summary") = false := by
        simpa [isSummaryLine, hp] using hl
      simp [findSummaryLoop, hp, hv, ih hr]
    | none => simp [findSummaryLoop, hp, ih hr]

/-- Non-qualifying lines at the front of the scan are skipped. -/
theorem findSummaryLoopSkip {α : Type} (mt : α → Option String)
    (p : String → Option α) (A B : List String)
    (h : ∀ l ∈ A, isSummaryLine mt p l = false) :
    findSummaryLoop mt p (A ++ B) = findSummaryLoop mt p B := by
  induction A with
  | nil => rfl
  | cons line rest ih =>
    have hl := h line (List.mem_cons_self line rest)
    have hr : ∀ l ∈ rest, isSummaryLine mt p l = false :=
      fun l hm => h l (List.mem_cons_of_mem _ hm)
    cases hp : p line with
    | some v =>
      have hv : (mt v == some "summary") = false := by
        simpa [isSummaryLine, hp] using hl
      simp [findSummaryLoop, hp, hv, ih hr]
    | none => simp [findSummaryLoop, hp, ih hr]

/-- C1: on any engine output, the backup parser returns the record of
exactly the last line that both parses and carries the summary
discriminator — earlier lines, parseable or not, are ignored — and fails
with the protocol error message when no line qualifies. -/
theorem backupParseSummary_last_summary :
    ∀ {α : Type} (messageType : α → Option String) (parseJson : String → Option α)
      (output : String),
    ((∀ l ∈ linesOf output, isSummaryLine messageType parseJson l = false) →
      backupParseSummary messageType parseJson output = .error noSummaryMsg)
  ∧ (∀ (pre : List String) (line : String) (rest : List String) (v : α),
      linesOf output = pre ++ line :: rest →
      parseJson line = some v → messageType v = some "summary" →
      (∀ l ∈ rest, isSummaryLine messageType parseJson l = false) →
      backupParseSummary messageType parseJson output = .ok v) := by
  intro α mt p output
  constructor
  · intro h
    unfold backupParseSummary
    exact findSummaryLoopAllNot mt p _ (fun l hm => h l (List.mem_reverse.mp hm))
  · intro pre line rest v hsplit hp hv hrest
    unfold backupParseSummary
    rw [hsplit, List.reverse_append, List.reverse_cons, List.append_assoc,
      List.singleton_append,
      findSummaryLoopSkip mt p _ _ (fun l hm => hrest l (List.mem_reverse.mp hm))]
    simp [findSummaryLoop, hp, hv]

/-- C1 witness: three newline-delimited records where only the last is
summary-tagged yield exactly that last record; output with a malformed
line and no summary record fails with the protocol error. -/
theorem backupParseSummary_last_summary_witness :
    backupParseSummary fixtureMessageType fixtureParseJson "notjson\np2\nS" = .ok "S" ∧
    backupParseSummary fixtureMessageType fixtureParseJson "notjson\np2" =
      .error noSummaryMsg :=
  ⟨(backupParseSummary_last_summary fixtureMessageType fixtureParseJson "notjson\np2\nS").2
      ["notjson", "p2"] "S" [] "S" (by decide) (by decide) (by decide) (by decide),
   (backupParseSummary_last_summary fixtureMessageType fixtureParseJson "notjson\np2").1
      (by decide)⟩

-- ── C2 ──────────────────────────────────────────────────────────────────────

/-- Once the running best difference is no larger than every remaining
parsed difference, the strict-less-than scan keeps the current best. -/
theorem scanBestKeep (pd : String → Option Int) (target : Int) :
    ∀ (L : List ResticSnapshot) (s : ResticSnapshot) (ds : Nat),
    (∀ x ∈ L, ∀ tx, pd x.time = some tx → ds ≤ (tx - target).natAbs) →
    scanBest pd target L (some (s, ds)) = some s := by
  intro L
  induction L with
  | nil => intro s ds _; rfl
  | cons snap rest ih =>
    intro s ds h
    have hr : ∀ x ∈ rest, ∀ tx, pd x.time = some tx → ds ≤ (tx - target).natAbs :=
      fun x hm => h x (List.mem_cons_of_mem _ hm)
    cases hp : pd snap.time with
    | none => simpa [scanBest, hp] using ih s ds hr
    | some tx =>
      have hle := h snap (List.mem_cons_self _ _) tx hp
      have hnlt : ¬ ((tx - target).natAbs < ds) := not_lt.mpr hle
      simpa [scanBest, hp, hnlt] using ih s ds hr

/-- The scan returns the first snapshot attaining the minimum difference:
strictly smaller than every parsed difference before it and than the
accumulator, no larger than every parsed difference after it. -/
theorem scanBestFirstMin (pd : String → Option Int) (target : Int) :
    ∀ (pre : List ResticSnapshot) (s : ResticSnapshot) (post : List ResticSnapshot)
      (ts : Int) (acc : Option (ResticSnapshot × Nat)),
    pd s.time = some ts →
    (∀ x ∈ pre, ∀ tx, pd x.time = some tx →
      (ts - target).natAbs < (tx - target).natAbs) →
    (∀ x ∈ post, ∀ tx, pd x.time = some tx →
      (ts - target).natAbs ≤ (tx - target).natAbs) →
    (∀ b db, acc = some (b, db) → (ts - target).natAbs < db) →
    scanBest pd target (pre ++ s :: post) acc = some s := by
  intro pre
  induction pre with
  | nil =>
    intro s post ts acc hs _ hpost hacc
    cases acc with
    | none =>
      simpa [scanBest, hs] using scanBestKeep pd target post s _ hpost
    | some bd =>
      obtain ⟨b, db⟩ := bd
      have hlt := hacc b db rfl
      simpa [scanBest, hs, hlt] using scanBestKeep pd target post s _ hpost
  | cons x pre ih =>
    intro s post ts acc hs hpre hpost hacc
    have hpre2 : ∀ y ∈ pre, ∀ ty, pd y.time = some ty →
        (ts - target).natAbs < (ty - target).natAbs :=
      fun y hm => hpre y (List.mem_cons_of_mem _ hm)
    cases hp : pd x.time with
    | none =>
      simpa [scanBest, hp] using ih s post ts acc hs hpre2 hpost hacc
    | some tx =>
      have hxlt := hpre x (List.mem_cons_self _ _) tx hp
      have haccx : ∀ b db, some (x, (tx - target).natAbs) = some (b, db) →
          (ts - target).natAbs < db := by
        intro b db hbd
        simp only [Option.some.injEq, Prod.mk.injEq] at hbd
        exact hbd.2 ▸ hxlt
      cases acc with
      | none =>
        simpa [scanBest, hp] using ih s post ts (some (x, (tx - target).natAbs)) hs hpre2 hpost haccx
      | some bd =>
        obtain ⟨b, db⟩ := bd
        have hdb := hacc b db rfl
        by_cases hc : (tx - target).natAbs < db
        · simpa [scanBest, hp, hc] using
            ih s post ts (some (x, (tx - target).natAbs)) hs hpre2 hpost haccx
        · have hbacc : ∀ c dc, some (b, db) = some (c, dc) →
              (ts - target).natAbs < dc := by
            intro c dc hbd
            simp only [Option.some.injEq, Prod.mk.injEq] at hbd
            exact hbd.2 ▸ hdb
          simpa [scanBest, hp, hc] using ih s post ts (some (b, db)) hs hpre2 hpost hbacc

/-- C2: the resolver computes one target instant — relative phrases use
the fixed multipliers, month being exactly thirty days in milliseconds;
unparseable absolute expressions fail with the invalid-time error — then
returns the snapshot minimizing absolute difference to the target under
strict less-than comparison, so the earliest-listed snapshot wins exact
ties; an empty snapshot list yields none. -/
theorem findSnapshotByTime_spec :
    ∀ (parseDate : String → Option Int) (now : Int) (timeStr : String),
    ((relMatch timeStr = none → parseDate timeStr = none →
      ∀ snapshots, findSnapshotByTime parseDate now snapshots timeStr =
        .error (cannotParseMsg timeStr))
  ∧ (∀ target : Int, computeTarget parseDate now timeStr = some target →
      findSnapshotByTime parseDate now [] timeStr = .ok none)
  ∧ (∀ amount : Nat, relMatch timeStr = some (amount, "month") →
      computeTarget parseDate now timeStr = some (now - (amount : Int) * 2592000000))
  ∧ (∀ (target ts : Int) (pre : List ResticSnapshot) (s : ResticSnapshot)
        (post : List ResticSnapshot),
      computeTarget parseDate now timeStr = some target →
      parseDate s.time = some ts →
      (∀ x ∈ pre, ∀ tx, parseDate x.time = some tx →
        (ts - target).natAbs < (tx - target).natAbs) →
      (∀ x ∈ post, ∀ tx, parseDate x.time = some tx →
        (ts - target).natAbs ≤ (tx - target).natAbs) →
      findSnapshotByTime parseDate now (pre ++ s :: post) timeStr = .ok (some s))) := by
  intro pd now timeStr
  refine ⟨?_, ?_, ?_, ?_⟩
  · intro h1 h2 snapshots
    simp [findSnapshotByTime, computeTarget, h1, h2]
  · intro target h
    simp [findSnapshotByTime, h, scanBest]
  · intro amount h
    simp [computeTarget, h, relMultipliers]
  · intro target ts pre s post htarget hs hpre hpost
    simp only [findSnapshotByTime, htarget]
    rw [scanBestFirstMin pd target pre s post ts none hs hpre hpost
      (fun b db h => by cases h)]

/-- C2 witness: snapshots three days, one day and one hour old with the
query two hours ago resolve to the one-hour-old snapshot; a query exactly
equidistant between two snapshots picks the earlier-listed one; an
unparseable absolute expression fails with the invalid-time error. -/
theorem findSnapshotByTime_spec_witness :
    findSnapshotByTime fixtureParseDate 0 [snap3d, snap1d, snap1h] "2 hours ago" =
      .ok (some snap1h) ∧
    findSnapshotByTime fixtureParseDate 0 [snapA, snapB] "T20" = .ok (some snapA) ∧
    findSnapshotByTime fixtureParseDate 0 [snap3d] "not a time" =
      .error (cannotParseMsg "not a time") := by
  refine ⟨?_, ?_, ?_⟩
  · refine (findSnapshotByTime_spec fixtureParseDate 0 "2 hours ago").2.2.2
      (-7200000) (-3600000) [snap3d, snap1d] snap1h [] (by decide) (by decide) ?_ ?_
    · intro x hx tx hp
      simp only [List.mem_cons, List.not_mem_nil, or_false] at hx
      rcases hx with rfl | rfl
      · obtain rfl := Option.some.inj
          ((by decide : fixtureParseDate snap3d.time = some (-259200000 : Int)).symm.trans hp)
        decide
      · obtain rfl := Option.some.inj
          ((by decide : fixtureParseDate snap1d.time = some (-86400000 : Int)).symm.trans hp)
        decide
    · intro x hx tx hp
      exact absurd hx (List.not_mem_nil x)
  · refine (findSnapshotByTime_spec fixtureParseDate 0 "T20").2.2.2
      20 10 [] snapA [snapB] (by decide) (by decide) ?_ ?_
    · intro x hx tx hp
      exact absurd hx (List.not_mem_nil x)
    · intro x hx tx hp
      simp only [List.mem_cons, List.not_mem_nil, or_false] at hx
      rcases hx with rfl
      obtain rfl := Option.some.inj
        ((by decide : fixtureParseDate snapB.time = some (30 : Int)).symm.trans hp)
      decide
  · exact (findSnapshotByTime_spec fixtureParseDate 0 "not a time").1
      (by decide) (by decide) [snap3d]

-- ── C6 ──────────────────────────────────────────────────────────────────────

/-- C6: categorizeFile is total — every relative path maps to one of the
nine categories — and the workspace rule is evaluated before the skills
rule: no path under workspace is ever classified skills, skills nested
under workspace classify as workspace, while a top-level skills path
classifies as skills. -/
theorem categorizeFile_spec :
    (∀ p : String,
      categorizeFile p = .config ∨ categorizeFile p = .secrets ∨
      categorizeFile p = .workspace ∨ categorizeFile p = .sessions ∨
      categorizeFile p = .memory ∨ categorizeFile p = .skills ∨
      categorizeFile p = .agents ∨ categorizeFile p = .settings ∨
      categorizeFile p = .other)
  ∧ (∀ p : String, strStartsWith p "workspace/" = true → categorizeFile p ≠ .skills)
  ∧ categorizeFile "workspace/skills/x/SKILL.md" = .workspace
  ∧ categorizeFile "skills/x/SKILL.md" = .skills := by
  refine ⟨?_, ?_, by decide, by decide⟩
  · intro p
    cases h : categorizeFile p <;> simp [h]
  · intro p hp
    unfold categorizeFile
    split_ifs <;> simp_all

/-- C6 witness: a workspace path is not classified skills. -/
theorem categorizeFile_spec_witness :
    categorizeFile "workspace/notes.md" ≠ FileCategory.skills :=
  categorizeFile_spec.2.1 "workspace/notes.md" (by decide)

end Clawstash
